import Mathlib

/-!
Catalogue service: the request-handling pipeline.

A shallow embedding of the Go package `catalogue` (logging.go, endpoints.go,
transport.go) and theorems about it.

Conventions of the embedding.

* A Go `string` is a Lean `String`; where the Go code works on bytes
  (`strconv.Atoi`) the embedding works on the UTF-8 bytes of the string.
* A Go slice `[]T` is `Slice T = Option (List T)`: `none` is the nil slice.
* A Go `int` is a 64-bit integer, embedded as an `Int`.
* A Go `error` that may be nil is `Option GoError`; equality of errors is
  equality of the dynamic value, which for the pointer-shaped errors of
  `errors.New` is identity (`ident`).
* Stateful collaborators (the wrapped service, the logger, the clock, the
  span, the response writer) are explicit state passing.
* Calls are assumed to return normally: Go panics are modelled only for the
  type assertions of the endpoints.
-/

namespace Catalogue

/-! ## Basic Go values -/

/-- A Go slice: `none` is the nil slice, `some xs` a non-nil slice. -/
abbrev Slice (α : Type) := Option (List α)

/-- The builtin `len` on slices. -/
def Slice.len {α : Type} : Slice α → Nat
  | none => 0
  | some xs => xs.length

/-- The elements of a slice (none for the nil slice). -/
def Slice.elems {α : Type} : Slice α → List α
  | none => []
  | some xs => xs

/-- A non-nil Go error value: its identity and the result of `Error()`. -/
structure GoError where
  ident : Nat
  msg : String
  deriving DecidableEq, Repr

/-- The method `Error()` of an error value. -/
def GoError.Error (e : GoError) : String := e.msg

/-- JSON documents, as produced by `encoding/json`. Objects keep the order in
which their members are written; `lit` is a number literal written for a
floating-point value. -/
inductive JSON where
  | null : JSON
  | num : Int → JSON
  | lit : String → JSON
  | str : String → JSON
  | arr : List JSON → JSON
  | obj : List (String × JSON) → JSON

/-- The member names of a JSON object, in the order written. -/
def JSON.keys : JSON → List String
  | JSON.obj fs => fs.map Prod.fst
  | _ => []

/-- The value of member `k` of a JSON object. -/
def JSON.field (k : String) : JSON → Option JSON
  | JSON.obj fs => (fs.find? (fun p => p.1 == k)).map Prod.snd
  | _ => none

/-- How `encoding/json` writes a `[]string`: `null` for the nil slice. -/
def marshalStrings : Slice String → JSON
  | none => JSON.null
  | some xs => JSON.arr (xs.map JSON.str)

/-- How `encoding/json` writes a non-nil error built by `errors.New`: a struct
with no exported field, hence the empty object. -/
def marshalError : Option GoError → JSON
  | none => JSON.null
  | some _ => JSON.obj []

/-! ## The data model of service.go -/

/-- Modelled from the spec: the item type `Sock` is declared in service.go,
which is not among the sources. Its fields are those of the CatalogueItem of
the data model, with the member names of the HTTP surface; `Price` is a
float in the source and is kept as the number literal written for it. -/
structure Sock where
  ID : String
  Name : String
  Description : String
  ImageURL : Slice String
  Price : String
  Count : Int
  Tags : Slice String

/-- The zero value `Sock{}`. -/
def Sock.zero : Sock := ⟨"", "", "", none, "0", 0, none⟩

/-- The JSON object written for a `Sock`. -/
def Sock.marshal (s : Sock) : JSON :=
  JSON.obj [("id", JSON.str s.ID), ("name", JSON.str s.Name),
    ("description", JSON.str s.Description), ("imageUrl", marshalStrings s.ImageURL),
    ("price", JSON.lit s.Price), ("count", JSON.num s.Count),
    ("tag", marshalStrings s.Tags)]

/-- Modelled from the spec: the record type `Health` is declared in
service.go, which is not among the sources. Its members are those of the
health response of the HTTP surface. -/
structure Health where
  Service : String
  Status : String
  Time : String
  deriving DecidableEq, Repr

/-- The JSON object written for a `Health` record. -/
def Health.marshal (h : Health) : JSON :=
  JSON.obj [("service", JSON.str h.Service), ("status", JSON.str h.Status),
    ("time", JSON.str h.Time)]

/-- The interface `Service`, with the method set used by logging.go and
endpoints.go. A method is a function of its arguments and of the state `σ` of
the implementation; it returns its results and the next state. -/
structure Service (σ : Type) where
  List : Slice String → String → Int → Int → String → σ → (Slice Sock × Option GoError) × σ
  Count : Slice String → String → σ → (Int × Option GoError) × σ
  Get : String → String → σ → (Sock × Option GoError) × σ
  Tags : String → σ → (Slice String × Option GoError) × σ
  Health : σ → Slice Health × σ

/-! ## logging.go -/

/-- A value passed to `Logger.Log` among its `keyvals`. -/
inductive LogVal where
  | str : String → LogVal
  | int : Int → LogVal
  | err : Option GoError → LogVal
  | dur : Int → LogVal
  deriving DecidableEq, Repr

/-- The interface `log.Logger` over a logger state `L`: `Log` takes the
key/value list and returns an error, which the middleware drops. -/
structure Logger (L : Type) where
  Log : List LogVal → L → Option GoError × L

/-- The wall clock: the successive readings of `time.Now()`. -/
structure Clock where
  readings : Nat → Int
  pos : Nat

/-- One call of `time.Now()`. -/
def Clock.now (c : Clock) : Int × Clock := (c.readings c.pos, { c with pos := c.pos + 1 })

/-- The function `strings.Join`. -/
def stringsJoin (xs : Slice String) (sep : String) : String :=
  sep.intercalate xs.elems

/-- The state the methods of `loggingMiddleware` run in: the state of the
wrapped service, the state of the logger, and the clock. -/
structure MwState (σ L : Type) where
  svc : σ
  log : L
  clock : Clock

/-- The struct `loggingMiddleware`. -/
structure loggingMiddleware (σ L : Type) where
  next : Service σ
  logger : Logger L

variable {σ L : Type}

/-- The deferred closure common to the five methods: `time.Since(begin)` is read,
then one record is logged. -/
def logDeferred (logger : Logger L) (begin : Int) (keyvals : Int → List LogVal)
    (log : L) (clock : Clock) : L × Clock :=
  let r := clock.now
  ((logger.Log (keyvals (r.1 - begin)) log).2, r.2)

/-- Method `List` of `loggingMiddleware`. -/
def loggingMiddleware.List (mw : loggingMiddleware σ L) (tags : Slice String) (order : String)
    (pageNum pageSize : Int) (traceID : String) (st : MwState σ L) :
    (Slice Sock × Option GoError) × MwState σ L :=
  let b := st.clock.now
  let r := mw.next.List tags order pageNum pageSize traceID st.svc
  let d := logDeferred mw.logger b.1 (fun took =>
    [.str "method", .str "List", .str "tags", .str (stringsJoin tags ", "),
     .str "order", .str order, .str "pageNum", .int pageNum, .str "pageSize", .int pageSize,
     .str "result", .int r.1.1.len, .str "err", .err r.1.2, .str "took", .dur took,
     .str "traceID", .str traceID]) st.log b.2
  (r.1, ⟨r.2, d.1, d.2⟩)

/-- Method `Count` of `loggingMiddleware`. -/
def loggingMiddleware.Count (mw : loggingMiddleware σ L) (tags : Slice String)
    (traceID : String) (st : MwState σ L) : (Int × Option GoError) × MwState σ L :=
  let b := st.clock.now
  let r := mw.next.Count tags traceID st.svc
  let d := logDeferred mw.logger b.1 (fun took =>
    [.str "method", .str "Count", .str "tags", .str (stringsJoin tags ", "),
     .str "result", .int r.1.1, .str "err", .err r.1.2, .str "took", .dur took,
     .str "traceID", .str traceID]) st.log b.2
  (r.1, ⟨r.2, d.1, d.2⟩)

/-- Method `Get` of `loggingMiddleware`. -/
def loggingMiddleware.Get (mw : loggingMiddleware σ L) (id : String)
    (traceID : String) (st : MwState σ L) : (Sock × Option GoError) × MwState σ L :=
  let b := st.clock.now
  let r := mw.next.Get id traceID st.svc
  let d := logDeferred mw.logger b.1 (fun took =>
    [.str "method", .str "Get", .str "id", .str id, .str "sock", .str r.1.1.ID,
     .str "err", .err r.1.2, .str "took", .dur took,
     .str "traceID", .str traceID]) st.log b.2
  (r.1, ⟨r.2, d.1, d.2⟩)

/-- Method `Tags` of `loggingMiddleware`. -/
def loggingMiddleware.Tags (mw : loggingMiddleware σ L)
    (traceID : String) (st : MwState σ L) : (Slice String × Option GoError) × MwState σ L :=
  let b := st.clock.now
  let r := mw.next.Tags traceID st.svc
  let d := logDeferred mw.logger b.1 (fun took =>
    [.str "method", .str "Tags", .str "result", .int r.1.1.len,
     .str "err", .err r.1.2, .str "took", .dur took,
     .str "traceID", .str traceID]) st.log b.2
  (r.1, ⟨r.2, d.1, d.2⟩)

/-- Method `Health` of `loggingMiddleware`. -/
def loggingMiddleware.Health (mw : loggingMiddleware σ L) (st : MwState σ L) :
    Slice Health × MwState σ L :=
  let b := st.clock.now
  let r := mw.next.Health st.svc
  let d := logDeferred mw.logger b.1 (fun took =>
    [.str "method", .str "Health", .str "result", .int r.1.len,
     .str "took", .dur took]) st.log b.2
  (r.1, ⟨r.2, d.1, d.2⟩)

/-- The constructor `LoggingMiddleware`: the wrapped service, as a `Service`
again. -/
def LoggingMiddleware (logger : Logger L) (next : Service σ) : Service (MwState σ L) :=
  let mw : loggingMiddleware σ L := { next := next, logger := logger }
  { List := mw.List, Count := mw.Count, Get := mw.Get, Tags := mw.Tags, Health := mw.Health }

/-- A call received by a service, with its arguments. -/
inductive Call where
  | list : Slice String → String → Int → Int → String → Call
  | count : Slice String → String → Call
  | get : String → String → Call
  | tags : String → Call
  | health : Call
  deriving DecidableEq, Repr

/-- A service instrumented to record every call it receives, in order; its
results are those of the service it instruments. -/
def recording (s : Service σ) : Service (σ × List Call) :=
  { List := fun tags order pageNum pageSize traceID st =>
      let r := s.List tags order pageNum pageSize traceID st.1
      (r.1, (r.2, st.2 ++ [Call.list tags order pageNum pageSize traceID]))
    Count := fun tags traceID st =>
      let r := s.Count tags traceID st.1
      (r.1, (r.2, st.2 ++ [Call.count tags traceID]))
    Get := fun id traceID st =>
      let r := s.Get id traceID st.1
      (r.1, (r.2, st.2 ++ [Call.get id traceID]))
    Tags := fun traceID st =>
      let r := s.Tags traceID st.1
      (r.1, (r.2, st.2 ++ [Call.tags traceID]))
    Health := fun st =>
      let r := s.Health st.1
      (r.1, (r.2, st.2 ++ [Call.health])) }

/-! ## Identifiers, spans and the dynamic values of endpoints.go -/

/-- The type `oteltrace.TraceID`, sixteen bytes, as the number they spell. -/
structure TraceID where
  val : Nat
  deriving DecidableEq, Repr

/-- The zero value of `TraceID`. -/
def TraceID.zero : TraceID := ⟨0⟩

/-- One lower-case hexadecimal digit. -/
def hexDigit (n : Nat) : Char :=
  if n < 10 then Char.ofNat (48 + n) else Char.ofNat (87 + n)

/-- Method `String()` of `TraceID`: the 32 hexadecimal digits of the 16 bytes. -/
def TraceID.String (t : TraceID) : String :=
  String.mk ((List.range 32).map (fun i => hexDigit (t.val / 16 ^ (31 - i) % 16)))

/-- Method `MarshalJSON` of `TraceID`: the hexadecimal string. -/
def TraceID.marshal (t : TraceID) : JSON := JSON.str t.String

/-- A span, as reached through `oteltrace.SpanFromContext(ctx)`: the trace
identifier of its span context, whether it records, and the attributes set on
it so far, oldest first. The span of a context without one does not record. -/
structure Span where
  traceID : TraceID
  recording : Bool
  attrs : List (String × String)
  deriving DecidableEq, Repr

/-- Method `SetAttributes`: a recording span appends the attributes given, in
the order given; reading an attribute yields the value set last. -/
def Span.SetAttributes (sp : Span) (kvs : List (String × String)) : Span :=
  if sp.recording then { sp with attrs := sp.attrs ++ kvs } else sp

/-- The attribute of a span under a key: the value set last, if any. -/
def Span.attr (sp : Span) (k : String) : Option String :=
  (sp.attrs.reverse.find? (fun p => p.1 == k)).map Prod.snd

/-- The verb `%v` of `fmt.Sprintf` on a string. -/
def sprintString (s : String) : String := s

/-- The verb `%v` of `fmt.Sprintf` on an int. -/
def sprintInt (n : Int) : String := toString n

/-- The verb `%v` of `fmt.Sprintf` on a `[]string`. -/
def sprintStrings (xs : Slice String) : String := "[" ++ " ".intercalate xs.elems ++ "]"

/-- The struct `listRequest`. -/
structure listRequest where
  Tags : Slice String
  Order : String
  PageNum : Int
  PageSize : Int
  deriving DecidableEq, Repr

/-- The struct `listResponse`. -/
structure listResponse where
  Socks : Slice Sock
  Err : Option GoError
  TraceID : TraceID

/-- The struct `countRequest`. -/
structure countRequest where
  Tags : Slice String
  deriving DecidableEq, Repr

/-- The struct `countResponse`. -/
structure countResponse where
  N : Int
  Err : Option GoError
  TraceID : TraceID
  deriving DecidableEq, Repr

/-- The struct `getRequest`. -/
structure getRequest where
  ID : String
  deriving DecidableEq, Repr

/-- The struct `getResponse`. -/
structure getResponse where
  Sock : Sock
  Err : Option GoError
  TraceID : TraceID

/-- The struct `tagsResponse`. -/
structure tagsResponse where
  Tags : Slice String
  Err : Option GoError
  TraceID : TraceID
  deriving DecidableEq, Repr

/-- The struct `healthResponse`. -/
structure healthResponse where
  Health : Slice Health
  deriving DecidableEq, Repr

/-- The values of type `interface{}` that flow between the transport and the
endpoints: the request and response structs, the payloads handed to
`encodeResponse`, the empty struct `struct{}{}` and nil. -/
inductive Any where
  | nil : Any
  | emptyStruct : Any
  | listRequest : listRequest → Any
  | countRequest : countRequest → Any
  | getRequest : getRequest → Any
  | tagsRequest : Any
  | healthRequest : Any
  | listResponse : listResponse → Any
  | countResponse : countResponse → Any
  | getResponse : getResponse → Any
  | tagsResponse : tagsResponse → Any
  | healthResponse : healthResponse → Any
  | socks : Slice Sock → Any
  | sock : Sock → Any

/-- How `encoding/json` writes a `[]Sock`. -/
def marshalSocks : Slice Sock → JSON
  | none => JSON.null
  | some xs => JSON.arr (xs.map Sock.marshal)

/-- How `encoding/json` writes a `[]Health`. -/
def marshalHealths : Slice Health → JSON
  | none => JSON.null
  | some xs => JSON.arr (xs.map Health.marshal)

/-- How `encoding/json` writes each value of `Any`: a struct is written as
an object with one member per exported field, in declaration order, under the
name of its `json` tag, or under the name of the field when it has no tag. -/
def Any.marshal : Any → JSON
  | .nil => JSON.null
  | .emptyStruct => JSON.obj []
  | .listRequest r => JSON.obj [("tags", marshalStrings r.Tags), ("order", JSON.str r.Order),
      ("pageNum", JSON.num r.PageNum), ("pageSize", JSON.num r.PageSize)]
  | .countRequest r => JSON.obj [("tags", marshalStrings r.Tags)]
  | .getRequest r => JSON.obj [("id", JSON.str r.ID)]
  | .tagsRequest => JSON.obj []
  | .healthRequest => JSON.obj []
  | .listResponse r => JSON.obj [("sock", marshalSocks r.Socks), ("err", marshalError r.Err),
      ("TraceID", r.TraceID.marshal)]
  | .countResponse r => JSON.obj [("size", JSON.num r.N), ("err", marshalError r.Err),
      ("TraceID", r.TraceID.marshal)]
  | .getResponse r => JSON.obj [("sock", r.Sock.marshal), ("err", marshalError r.Err),
      ("TraceID", r.TraceID.marshal)]
  | .tagsResponse r => JSON.obj [("tags", marshalStrings r.Tags), ("err", marshalError r.Err),
      ("TraceID", r.TraceID.marshal)]
  | .healthResponse r => JSON.obj [("health", marshalHealths r.Health)]
  | .socks xs => marshalSocks xs
  | .sock s => s.marshal

/-! ## endpoints.go -/

/-- The state an endpoint runs in: the state of the service and the span of
the context. -/
structure EpState (σ : Type) where
  svc : σ
  span : Span

/-- The type `endpoint.Endpoint`: from the request to the response, the
error and the next state; `none` is a panic. -/
abbrev Endpoint (σ : Type) := Any → EpState σ → Option ((Any × Option GoError) × EpState σ)

/-- The endpoint built by `MakeListEndpoint`. -/
def MakeListEndpoint (s : Service σ) : Endpoint σ := fun request st =>
  match request with
  | .listRequest req =>
    let span := st.span.SetAttributes [("tags", sprintString req.Order),
      ("order", sprintString req.Order), ("Page Number", sprintInt req.PageNum),
      ("tags", sprintInt req.PageSize), ("service", "catalogue")]
    let r := s.List req.Tags req.Order req.PageNum req.PageSize span.traceID.String st.svc
    some ((.listResponse { Socks := r.1.1, Err := r.1.2, TraceID := TraceID.zero }, r.1.2),
      ⟨r.2, span⟩)
  | _ => none

/-- The endpoint built by `MakeCountEndpoint`. -/
def MakeCountEndpoint (s : Service σ) : Endpoint σ := fun request st =>
  match request with
  | .countRequest req =>
    let span := st.span.SetAttributes [("counts", sprintStrings req.Tags),
      ("service", "catalogue")]
    let r := s.Count req.Tags span.traceID.String st.svc
    some ((.countResponse { N := r.1.1, Err := r.1.2, TraceID := TraceID.zero }, r.1.2),
      ⟨r.2, span⟩)
  | _ => none

/-- The endpoint built by `MakeGetEndpoint`. -/
def MakeGetEndpoint (s : Service σ) : Endpoint σ := fun request st =>
  match request with
  | .getRequest req =>
    let span := st.span.SetAttributes [("ID", sprintString req.ID), ("service", "catalogue")]
    let r := s.Get req.ID span.traceID.String st.svc
    some ((.getResponse { Sock := r.1.1, Err := r.1.2, TraceID := TraceID.zero }, r.1.2),
      ⟨r.2, span⟩)
  | _ => none

/-- The endpoint built by `MakeTagsEndpoint`. -/
def MakeTagsEndpoint (s : Service σ) : Endpoint σ := fun _ st =>
  let span := st.span.SetAttributes [("service", "catalogue")]
  let r := s.Tags span.traceID.String st.svc
  some ((.tagsResponse { Tags := r.1.1, Err := r.1.2, TraceID := TraceID.zero }, r.1.2),
    ⟨r.2, span⟩)

/-- The endpoint built by `MakeHealthEndpoint`. -/
def MakeHealthEndpoint (s : Service σ) : Endpoint σ := fun _ st =>
  let span := st.span.SetAttributes [("service", "catalogue")]
  let r := s.Health st.svc
  some ((.healthResponse { Health := r.1 }, none), ⟨r.2, span⟩)

/-! ## Library functions used by transport.go -/

/-- The UTF-8 bytes of a string: what a Go string is indexed by. -/
def utf8Bytes (s : String) : List Nat :=
  s.data.flatMap (fun c => (String.utf8EncodeChar c).map UInt8.toNat)

namespace strconv

/-- The two errors of package strconv. -/
inductive NumError where
  | ErrSyntax : NumError
  | ErrRange : NumError
  deriving DecidableEq, Repr

/-- The largest and the smallest `int`, and the largest `uint64`. -/
def maxInt : Int := 2 ^ 63 - 1

/-- The smallest `int`. -/
def minInt : Int := -(2 ^ 63)

/-- The largest `uint64`. -/
def maxUint64 : Nat := 2 ^ 64 - 1

/-- The loop of `ParseUint` for base 10 and 64 bits, over the remaining bytes,
with the number read so far. A byte that is not a decimal digit (a letter has
a digit value of at least 10, the base) ends it with a syntax error and 0; an
overflow ends it with a range error and the largest value, whatever follows. -/
def parseUintLoop : List Nat → Nat → Nat × Option NumError
  | [], n => (n, none)
  | c :: cs, n =>
    if 48 ≤ c ∧ c ≤ 57 then
      if n ≥ maxUint64 / 10 + 1 then (maxUint64, some .ErrRange)
      else
        let m := n * 10 % 2 ^ 64
        let n1 := (m + (c - 48)) % 2 ^ 64
        if n1 < m ∨ n1 > maxUint64 then (maxUint64, some .ErrRange)
        else parseUintLoop cs n1
    else (0, some .ErrSyntax)

/-- The function `ParseUint(s, 10, 0)` on the bytes of `s`. -/
def ParseUint (s : List Nat) : Nat × Option NumError :=
  if s = [] then (0, some .ErrSyntax) else parseUintLoop s 0

/-- The function `ParseInt(s, 10, 0)` on the bytes of `s`. -/
def ParseInt (s : List Nat) : Int × Option NumError :=
  match s with
  | [] => (0, some .ErrSyntax)
  | c :: cs =>
    let neg := decide (c = 45)
    let s1 := if c = 43 ∨ c = 45 then cs else c :: cs
    let r := ParseUint s1
    if r.2 = some .ErrSyntax then (0, some .ErrSyntax)
    else if neg = false ∧ r.1 ≥ 2 ^ 63 then (2 ^ 63 - 1, some .ErrRange)
    else if neg = true ∧ r.1 > 2 ^ 63 then (-(2 ^ 63), some .ErrRange)
    else (if neg then -(r.1 : Int) else (r.1 : Int), none)

/-- The loop of the fast path of `Atoi`: `ch -= 48` is byte arithmetic, so
that a byte below 48 wraps to a value above 9. -/
def atoiFastLoop : List Nat → Int → Option Int
  | [], n => some n
  | ch :: cs, n =>
    let d := (ch + 256 - 48) % 256
    if d > 9 then none else atoiFastLoop cs (n * 10 + d)

/-- The function `Atoi`, for 64-bit ints: the fast path for a string of 1 to
18 bytes, `ParseInt` otherwise. -/
def Atoi (s : String) : Int × Option NumError :=
  let b := utf8Bytes s
  if 0 < b.length ∧ b.length < 19 then
    match b with
    | [] => (0, some .ErrSyntax)
    | c :: cs =>
      let s1 := if c = 45 ∨ c = 43 then cs else c :: cs
      if (c = 45 ∨ c = 43) ∧ s1.length < 1 then (0, some .ErrSyntax)
      else
        match atoiFastLoop s1 0 with
        | none => (0, some .ErrSyntax)
        | some n => (if c = 45 then -n else n, none)
  else ParseInt b

end strconv

/-- The function `unicode.ToLower`: the ASCII letters are mapped here; outside
ASCII the rune is mapped by the case table of package unicode, `table`. -/
def unicodeToLower (table : Char → Char) (c : Char) : Char :=
  if c.toNat ≤ 127 then
    (if 65 ≤ c.toNat ∧ c.toNat ≤ 90 then Char.ofNat (c.toNat + 32) else c)
  else table c

/-- The function `strings.ToLower`. -/
def stringsToLower (table : Char → Char) (s : String) : String :=
  String.mk (s.data.map (unicodeToLower table))

/-- The pieces of a character list between the occurrences of `sep`. -/
def splitChars (sep : Char) : List Char → List (List Char)
  | [] => [[]]
  | c :: cs =>
    if c = sep then [] :: splitChars sep cs
    else
      match splitChars sep cs with
      | [] => [[c]]
      | p :: ps => (c :: p) :: ps

/-- The function `strings.Split` for a separator of one character. -/
def stringsSplit (s : String) (sep : Char) : List String :=
  (splitChars sep s.data).map String.mk

/-- The function `http.StatusText`. -/
def StatusText (code : Int) : String :=
  if code = 100 then "Continue"
  else if code = 101 then "Switching Protocols"
  else if code = 102 then "Processing"
  else if code = 103 then "Early Hints"
  else if code = 200 then "OK"
  else if code = 201 then "Created"
  else if code = 202 then "Accepted"
  else if code = 203 then "Non-Authoritative Information"
  else if code = 204 then "No Content"
  else if code = 205 then "Reset Content"
  else if code = 206 then "Partial Content"
  else if code = 207 then "Multi-Status"
  else if code = 208 then "Already Reported"
  else if code = 226 then "IM Used"
  else if code = 300 then "Multiple Choices"
  else if code = 301 then "Moved Permanently"
  else if code = 302 then "Found"
  else if code = 303 then "See Other"
  else if code = 304 then "Not Modified"
  else if code = 305 then "Use Proxy"
  else if code = 307 then "Temporary Redirect"
  else if code = 308 then "Permanent Redirect"
  else if code = 400 then "Bad Request"
  else if code = 401 then "Unauthorized"
  else if code = 402 then "Payment Required"
  else if code = 403 then "Forbidden"
  else if code = 404 then "Not Found"
  else if code = 405 then "Method Not Allowed"
  else if code = 406 then "Not Acceptable"
  else if code = 407 then "Proxy Authentication Required"
  else if code = 408 then "Request Timeout"
  else if code = 409 then "Conflict"
  else if code = 410 then "Gone"
  else if code = 411 then "Length Required"
  else if code = 412 then "Precondition Failed"
  else if code = 413 then "Request Entity Too Large"
  else if code = 414 then "Request URI Too Long"
  else if code = 415 then "Unsupported Media Type"
  else if code = 416 then "Requested Range Not Satisfiable"
  else if code = 417 then "Expectation Failed"
  else if code = 418 then "I\x27m a teapot"
  else if code = 421 then "Misdirected Request"
  else if code = 422 then "Unprocessable Entity"
  else if code = 423 then "Locked"
  else if code = 424 then "Failed Dependency"
  else if code = 425 then "Too Early"
  else if code = 426 then "Upgrade Required"
  else if code = 428 then "Precondition Required"
  else if code = 429 then "Too Many Requests"
  else if code = 431 then "Request Header Fields Too Large"
  else if code = 451 then "Unavailable For Legal Reasons"
  else if code = 500 then "Internal Server Error"
  else if code = 501 then "Not Implemented"
  else if code = 502 then "Bad Gateway"
  else if code = 503 then "Service Unavailable"
  else if code = 504 then "Gateway Timeout"
  else if code = 505 then "HTTP Version Not Supported"
  else if code = 506 then "Variant Also Negotiates"
  else if code = 507 then "Insufficient Storage"
  else if code = 508 then "Loop Detected"
  else if code = 510 then "Not Extended"
  else if code = 511 then "Network Authentication Required"
  else ""

/-- The constant `http.StatusNotFound`. -/
def StatusNotFound : Int := 404

/-- The constant `http.StatusInternalServerError`. -/
def StatusInternalServerError : Int := 500

/-- The constant `http.StatusOK`. -/
def StatusOK : Int := 200

/-- How `encoding/json` writes a `map[string]interface{}`: an object whose
members are sorted by key. -/
def marshalMap (m : List (String × JSON)) : JSON :=
  JSON.obj (m.insertionSort (fun a b => a.1.data ≤ b.1.data))

/-- The response writer of net/http. `header` is the map returned by
`Header()`; `sent` is the copy of it taken when the status line is written,
which is what goes on the wire; `body` is the sequence of JSON documents
written. -/
structure ResponseWriter where
  header : List (String × String)
  wroteHeader : Bool
  status : Int
  sent : List (String × String)
  body : List JSON

/-- A response writer on which nothing has been done. -/
def ResponseWriter.fresh : ResponseWriter := ⟨[], false, 0, [], []⟩

/-- The call `w.Header().Set(k, v)`. -/
def ResponseWriter.HeaderSet (w : ResponseWriter) (k v : String) : ResponseWriter :=
  { w with header := w.header.filter (fun p => p.1 != k) ++ [(k, v)] }

/-- The call `w.WriteHeader(code)`: the first call fixes the status and
freezes the headers, a later one has no effect. -/
def ResponseWriter.WriteHeader (w : ResponseWriter) (code : Int) : ResponseWriter :=
  if w.wroteHeader then w
  else { w with wroteHeader := true, status := code, sent := w.header }

/-- The call `w.Write(data)` of one JSON document: it writes the status 200
first when no status has been written. -/
def ResponseWriter.Write (w : ResponseWriter) (doc : JSON) : ResponseWriter :=
  let w1 := w.WriteHeader StatusOK
  { w1 with body := w1.body ++ [doc] }

/-- The value of the header `k` among the headers sent with the status line,
if it is among them. -/
def ResponseWriter.sentValue (w : ResponseWriter) (k : String) : Option String :=
  (w.sent.find? (fun p => p.1 == k)).map Prod.snd

/-- The call `json.NewEncoder(w).Encode(v)` on a value already marshalled;
the error it returns is nil. -/
def jsonEncode (w : ResponseWriter) (v : JSON) : ResponseWriter × Option GoError :=
  (w.Write v, none)

/-- The part of `*http.Request` the decoders read: the parsed form (a map
from a key to its values) and the path variables of the router. -/
structure Request where
  Form : List (String × List String)
  Vars : List (String × String)
  deriving DecidableEq, Repr

/-- Method `FormValue`: the first value of the key, or the empty string. -/
def Request.FormValue (r : Request) (key : String) : String :=
  match r.Form.lookup key with
  | some (v :: _) => v
  | _ => ""

/-- The lookup `mux.Vars(r)[key]`: the empty string for an absent key. -/
def Request.Var (r : Request) (key : String) : String :=
  (r.Vars.lookup key).getD ""

/-! ## transport.go -/

/-- The function `encodeError`, for a non-nil error; `ErrNotFound` is the
error value of that name of service.go. -/
def encodeError (ErrNotFound : GoError) (err : GoError) (w : ResponseWriter) : ResponseWriter :=
  let code := if err = ErrNotFound then StatusNotFound else StatusInternalServerError
  let w1 := w.WriteHeader code
  let w2 := w1.HeaderSet "Content-Type" "application/json; charset=utf-8"
  (jsonEncode w2 (marshalMap [("error", JSON.str err.Error), ("status_code", JSON.num code),
    ("status_text", JSON.str (StatusText code))])).1

/-- The function `decodeListRequest`. -/
def decodeListRequest (table : Char → Char) (r : Request) : Any × Option GoError :=
  let pageNum := if r.FormValue "page" ≠ "" then (strconv.Atoi (r.FormValue "page")).1 else 1
  let pageSize := if r.FormValue "size" ≠ "" then (strconv.Atoi (r.FormValue "size")).1 else 10
  let order := if r.FormValue "sort" ≠ "" then stringsToLower table (r.FormValue "sort") else "id"
  let tags := if r.FormValue "tags" ≠ "" then stringsSplit (r.FormValue "tags") ',' else []
  (.listRequest { Tags := some tags, Order := order, PageNum := pageNum, PageSize := pageSize },
    none)

/-- The function `decodeCountRequest`. -/
def decodeCountRequest (r : Request) : Any × Option GoError :=
  let tags := if r.FormValue "tags" ≠ "" then stringsSplit (r.FormValue "tags") ',' else []
  (.countRequest { Tags := some tags }, none)

/-- The function `decodeGetRequest`. -/
def decodeGetRequest (r : Request) : Any × Option GoError :=
  (.getRequest { ID := r.Var "id" }, none)

/-- The function `decodeTagsRequest`. -/
def decodeTagsRequest (_r : Request) : Any × Option GoError := (.emptyStruct, none)

/-- The function `decodeHealthRequest`. -/
def decodeHealthRequest (_r : Request) : Any × Option GoError := (.emptyStruct, none)

/-- The function `encodeResponse`. -/
def encodeResponse (w : ResponseWriter) (response : Any) : ResponseWriter × Option GoError :=
  let w1 := w.HeaderSet "Content-Type" "application/json; charset=utf-8"
  jsonEncode w1 response.marshal

/-- The function `encodeListResponse`; `none` is the panic of the type
assertion. -/
def encodeListResponse (w : ResponseWriter) (response : Any) :
    Option (ResponseWriter × Option GoError) :=
  match response with
  | .listResponse resp => some (encodeResponse w (.socks resp.Socks))
  | _ => none

/-- The function `encodeGetResponse`; `none` is the panic of the type
assertion. -/
def encodeGetResponse (ErrNotFound : GoError) (w : ResponseWriter) (response : Any) :
    Option (ResponseWriter × Option GoError) :=
  match response with
  | .getResponse resp =>
    match resp.Err with
    | some err => some (encodeError ErrNotFound err w, none)
    | none => some (encodeResponse w (.sock resp.Sock))
  | _ => none

/-- The function `encodeHealthResponse`; `none` is the panic of the type
assertion. -/
def encodeHealthResponse (w : ResponseWriter) (response : Any) :
    Option (ResponseWriter × Option GoError) :=
  match response with
  | .healthResponse resp => some (encodeResponse w (.healthResponse resp))
  | _ => none

/-- Which of its two encoders a route used. -/
inductive Encoder where
  | success : Encoder
  | error : Encoder
  deriving DecidableEq, Repr

/-- The method `ServeHTTP` of the go-kit server a route is mounted with, given
the request already decoded: the endpoint is called; a non-nil error goes to
the error encoder, otherwise the response goes to the encoder of the route.
The result tells which encoder wrote the response; `none` is a panic. -/
def serve (ErrNotFound : GoError) (e : Endpoint σ)
    (enc : ResponseWriter → Any → Option (ResponseWriter × Option GoError))
    (request : Any) (st : EpState σ) (w : ResponseWriter) :
    Option (Encoder × ResponseWriter × EpState σ) :=
  match e request st with
  | none => none
  | some ((_, some err), st1) => some (.error, encodeError ErrNotFound err w, st1)
  | some ((response, none), st1) =>
    match enc w response with
    | none => none
    | some (w1, none) => some (.success, w1, st1)
    | some (w1, some err) => some (.error, encodeError ErrNotFound err w1, st1)

/-! ## Concrete instances -/

/-- The type assertion `x.(listRequest)`, as an option. -/
def Any.toListRequest : Any → Option Catalogue.listRequest
  | .listRequest r => some r
  | _ => none

/-- A service without state whose methods give fixed answers: `n` items
counted, the item `sock`, and the error `err` on every fallible method. -/
def fixedService (n : Int) (sock : Sock) (err : Option GoError) : Service Unit :=
  { List := fun _ _ _ _ _ st => ((some [sock], err), st)
    Count := fun _ _ st => ((n, err), st)
    Get := fun _ _ st => ((sock, err), st)
    Tags := fun _ st => ((some ["red"], err), st)
    Health := fun st => (some [⟨"catalogue", "OK", "now"⟩], st) }

/-- A logger that keeps the records it is given, newest last. -/
def listLogger : Logger (List (List LogVal)) :=
  { Log := fun keyvals st => (none, st ++ [keyvals]) }

/-- A recording span without attributes. -/
def emptySpan : Span := ⟨TraceID.zero, true, []⟩

/-! ## The words of the specification -/

/-- Whether a character is a decimal digit. -/
def isDigit (c : Char) : Bool := decide (48 ≤ c.toNat) && decide (c.toNat ≤ 57)

/-- Whether a character list is a non-empty run of decimal digits. -/
def isDigits (cs : List Char) : Bool := !cs.isEmpty && cs.all isDigit

/-- The number a run of decimal digits denotes after the number `n` already
read. -/
def digitsFrom (n : Nat) (cs : List Char) : Nat :=
  cs.foldl (fun a c => a * 10 + (c.toNat - 48)) n

/-- The integer a string denotes as a decimal integer: an optional sign, then
one or more decimal digits; `none` when the string is not of this form. -/
def decimalValue (s : String) : Option Int :=
  match s.data with
  | [] => none
  | c :: cs =>
    if c.toNat = 45 then (if isDigits cs then some (-(digitsFrom 0 cs : Int)) else none)
    else if c.toNat = 43 then (if isDigits cs then some (digitsFrom 0 cs : Int) else none)
    else if isDigits (c :: cs) then some (digitsFrom 0 (c :: cs) : Int) else none

/-- Whether a parameter value is absent/empty or a decimal integer in the
range of `int`, and the value the specification gives the parameter then:
the default for the empty string, the integer otherwise. -/
def paramValue (dflt : Int) (s : String) : Option Int :=
  if s = "" then some dflt
  else
    match decimalValue s with
    | some v => if strconv.minInt ≤ v ∧ v ≤ strconv.maxInt then some v else none
    | none => none

/-! ## Theorems -/

/-- C1. For every wrapped service, logger and input, each of the five methods
of the logging middleware returns exactly the results of the same method of
the wrapped service on the same arguments, and leaves the wrapped service in
the state one call of that method with those arguments leaves it in; on a
wrapped service that records its calls, exactly one call is recorded, with the
arguments unchanged. -/
theorem LoggingMiddleware_transparent (logger : Logger L) (next : Service σ)
    (st : MwState σ L) (calls : List Call) (lg : L) (ck : Clock)
    (tags : Slice String) (order : String) (pageNum pageSize : Int) (id traceID : String) :
    (((LoggingMiddleware logger next).List tags order pageNum pageSize traceID st).1
        = (next.List tags order pageNum pageSize traceID st.svc).1
      ∧ ((LoggingMiddleware logger next).List tags order pageNum pageSize traceID st).2.svc
        = (next.List tags order pageNum pageSize traceID st.svc).2
      ∧ ((LoggingMiddleware logger (recording next)).List tags order pageNum pageSize traceID
          ⟨(st.svc, calls), lg, ck⟩).2.svc.2
        = calls ++ [Call.list tags order pageNum pageSize traceID])
    ∧ (((LoggingMiddleware logger next).Count tags traceID st).1
        = (next.Count tags traceID st.svc).1
      ∧ ((LoggingMiddleware logger next).Count tags traceID st).2.svc
        = (next.Count tags traceID st.svc).2
      ∧ ((LoggingMiddleware logger (recording next)).Count tags traceID
          ⟨(st.svc, calls), lg, ck⟩).2.svc.2
        = calls ++ [Call.count tags traceID])
    ∧ (((LoggingMiddleware logger next).Get id traceID st).1
        = (next.Get id traceID st.svc).1
      ∧ ((LoggingMiddleware logger next).Get id traceID st).2.svc
        = (next.Get id traceID st.svc).2
      ∧ ((LoggingMiddleware logger (recording next)).Get id traceID
          ⟨(st.svc, calls), lg, ck⟩).2.svc.2
        = calls ++ [Call.get id traceID])
    ∧ (((LoggingMiddleware logger next).Tags traceID st).1
        = (next.Tags traceID st.svc).1
      ∧ ((LoggingMiddleware logger next).Tags traceID st).2.svc
        = (next.Tags traceID st.svc).2
      ∧ ((LoggingMiddleware logger (recording next)).Tags traceID
          ⟨(st.svc, calls), lg, ck⟩).2.svc.2
        = calls ++ [Call.tags traceID])
    ∧ (((LoggingMiddleware logger next).Health st).1 = (next.Health st.svc).1
      ∧ ((LoggingMiddleware logger next).Health st).2.svc = (next.Health st.svc).2
      ∧ ((LoggingMiddleware logger (recording next)).Health
          ⟨(st.svc, calls), lg, ck⟩).2.svc.2
        = calls ++ [Call.health]) := by
  refine ⟨⟨rfl, rfl, rfl⟩, ⟨rfl, rfl, rfl⟩, ⟨rfl, rfl, rfl⟩, ⟨rfl, rfl, rfl⟩, ⟨rfl, rfl, rfl⟩⟩

/-! ### Helper lemmas -/

theorem marshalMap_error (a b c : JSON) :
    marshalMap [("error", a), ("status_code", b), ("status_text", c)]
      = JSON.obj [("error", a), ("status_code", b), ("status_text", c)] := by
  have h1 : ("error" : String).data ≤ ("status_code" : String).data := by decide
  have h2 : ("status_code" : String).data ≤ ("status_text" : String).data := by decide
  have h3 : ("error" : String).data ≤ ("status_text" : String).data := by decide
  simp [marshalMap, List.insertionSort, List.orderedInsert, h1, h2, h3]

theorem encodeError_status (ErrNotFound err : GoError) (w : ResponseWriter)
    (hw : w.wroteHeader = false) :
    (encodeError ErrNotFound err w).status = (if err = ErrNotFound then 404 else 500) := by
  simp [encodeError, jsonEncode, ResponseWriter.Write, ResponseWriter.WriteHeader,
    ResponseWriter.HeaderSet, hw, StatusNotFound, StatusInternalServerError]

theorem encodeError_body (ErrNotFound err : GoError) (w : ResponseWriter) :
    (encodeError ErrNotFound err w).body = w.body ++
      [JSON.obj [("error", JSON.str err.Error),
        ("status_code", JSON.num (if err = ErrNotFound then 404 else 500)),
        ("status_text", JSON.str (StatusText (if err = ErrNotFound then 404 else 500)))]] := by
  by_cases hw : w.wroteHeader <;>
  simp [encodeError, jsonEncode, ResponseWriter.Write, ResponseWriter.WriteHeader,
    ResponseWriter.HeaderSet, hw, StatusNotFound, StatusInternalServerError, marshalMap_error]

theorem SetAttributes_traceID (sp : Span) (kvs : List (String × String)) :
    (sp.SetAttributes kvs).traceID = sp.traceID := by
  unfold Span.SetAttributes
  split <;> rfl

theorem TraceID_zero_String : TraceID.zero.String = "00000000000000000000000000000000" := by
  decide

/-! ### The claims -/

/-- C2. On a response writer whose status line is not yet written, encodeError
writes the status 404 when the error is ErrNotFound and 500 for every other
error, and the body it writes is the JSON object with exactly the members
error (the message of the error), status_code (the status written) and
status_text (the standard text of that status, Not Found for 404). -/
theorem encodeError_status_body (ErrNotFound err : GoError) (w : ResponseWriter)
    (hw : w.wroteHeader = false) :
    (err = ErrNotFound → (encodeError ErrNotFound err w).status = 404)
    ∧ (err ≠ ErrNotFound → (encodeError ErrNotFound err w).status = 500)
    ∧ (encodeError ErrNotFound err w).wroteHeader = true
    ∧ (encodeError ErrNotFound err w).body = w.body ++
        [JSON.obj [("error", JSON.str err.Error),
          ("status_code", JSON.num (encodeError ErrNotFound err w).status),
          ("status_text", JSON.str (StatusText (encodeError ErrNotFound err w).status))]]
    ∧ StatusText 404 = "Not Found" := by
  refine ⟨?_, ?_, ?_, ?_, by decide⟩
  · intro h
    rw [encodeError_status _ _ _ hw, if_pos h]
  · intro h
    rw [encodeError_status _ _ _ hw, if_neg h]
  · simp [encodeError, jsonEncode, ResponseWriter.Write, ResponseWriter.WriteHeader,
      ResponseWriter.HeaderSet, hw]
  · rw [encodeError_status _ _ _ hw]
    exact encodeError_body ErrNotFound err w

/-- Witness of C2: the error ErrNotFound on a fresh response writer. -/
theorem encodeError_status_body_witness :
    ResponseWriter.fresh.wroteHeader = false
    ∧ (encodeError ⟨1, "not found"⟩ ⟨1, "not found"⟩ ResponseWriter.fresh).status = 404
    ∧ (encodeError ⟨1, "not found"⟩ ⟨1, "not found"⟩ ResponseWriter.fresh).body =
        [JSON.obj [("error", JSON.str "not found"), ("status_code", JSON.num 404),
          ("status_text", JSON.str "Not Found")]] := by
  have h := encodeError_status_body ⟨1, "not found"⟩ ⟨1, "not found"⟩ ResponseWriter.fresh rfl
  refine ⟨rfl, h.1 rfl, ?_⟩
  have h4 := h.2.2.2.1
  rw [h.1 rfl] at h4
  rw [h4]
  simp [ResponseWriter.fresh, GoError.Error]
  decide

/-- C6. For every service and every request of the right type, the List,
Count, Get and Tags endpoints return the envelope holding the payload and the
error returned by the one call of the corresponding service method on the
fields of the request (and the trace identifier of the span), together with
that same error; a service that records its calls records exactly that one
call. -/
theorem endpoints_mirror_service (s : Service σ) (st : EpState σ) (calls : List Call)
    (lr : listRequest) (cr : countRequest) (gr : getRequest) (request : Any) :
    ((MakeListEndpoint s (.listRequest lr) st).map (fun x => (x.1, x.2.svc))
        = some ((.listResponse
            ⟨(s.List lr.Tags lr.Order lr.PageNum lr.PageSize st.span.traceID.String st.svc).1.1,
             (s.List lr.Tags lr.Order lr.PageNum lr.PageSize st.span.traceID.String st.svc).1.2,
             TraceID.zero⟩,
            (s.List lr.Tags lr.Order lr.PageNum lr.PageSize st.span.traceID.String st.svc).1.2),
          (s.List lr.Tags lr.Order lr.PageNum lr.PageSize st.span.traceID.String st.svc).2)
      ∧ (MakeListEndpoint (recording s) (.listRequest lr) ⟨(st.svc, calls), st.span⟩).map
          (fun x => x.2.svc.2)
        = some (calls ++
            [Call.list lr.Tags lr.Order lr.PageNum lr.PageSize st.span.traceID.String]))
    ∧ ((MakeCountEndpoint s (.countRequest cr) st).map (fun x => (x.1, x.2.svc))
        = some ((.countResponse
            ⟨(s.Count cr.Tags st.span.traceID.String st.svc).1.1,
             (s.Count cr.Tags st.span.traceID.String st.svc).1.2, TraceID.zero⟩,
            (s.Count cr.Tags st.span.traceID.String st.svc).1.2),
          (s.Count cr.Tags st.span.traceID.String st.svc).2)
      ∧ (MakeCountEndpoint (recording s) (.countRequest cr) ⟨(st.svc, calls), st.span⟩).map
          (fun x => x.2.svc.2)
        = some (calls ++ [Call.count cr.Tags st.span.traceID.String]))
    ∧ ((MakeGetEndpoint s (.getRequest gr) st).map (fun x => (x.1, x.2.svc))
        = some ((.getResponse
            ⟨(s.Get gr.ID st.span.traceID.String st.svc).1.1,
             (s.Get gr.ID st.span.traceID.String st.svc).1.2, TraceID.zero⟩,
            (s.Get gr.ID st.span.traceID.String st.svc).1.2),
          (s.Get gr.ID st.span.traceID.String st.svc).2)
      ∧ (MakeGetEndpoint (recording s) (.getRequest gr) ⟨(st.svc, calls), st.span⟩).map
          (fun x => x.2.svc.2)
        = some (calls ++ [Call.get gr.ID st.span.traceID.String]))
    ∧ ((MakeTagsEndpoint s request st).map (fun x => (x.1, x.2.svc))
        = some ((.tagsResponse
            ⟨(s.Tags st.span.traceID.String st.svc).1.1,
             (s.Tags st.span.traceID.String st.svc).1.2, TraceID.zero⟩,
            (s.Tags st.span.traceID.String st.svc).1.2),
          (s.Tags st.span.traceID.String st.svc).2)
      ∧ (MakeTagsEndpoint (recording s) request ⟨(st.svc, calls), st.span⟩).map
          (fun x => x.2.svc.2)
        = some (calls ++ [Call.tags st.span.traceID.String])) := by
  simp [MakeListEndpoint, MakeCountEndpoint, MakeGetEndpoint, MakeTagsEndpoint,
    SetAttributes_traceID, recording]

theorem encodeResponse_body (w : ResponseWriter) (v : Any) :
    (encodeResponse w v).1.body = w.body ++ [v.marshal] ∧ (encodeResponse w v).2 = none := by
  by_cases hw : w.wroteHeader <;>
  simp [encodeResponse, jsonEncode, ResponseWriter.Write, ResponseWriter.WriteHeader,
    ResponseWriter.HeaderSet, hw]

theorem encodeResponse_status (w : ResponseWriter) (v : Any) :
    (encodeResponse w v).1.status = (if w.wroteHeader then w.status else 200) := by
  by_cases hw : w.wroteHeader <;>
  simp [encodeResponse, jsonEncode, ResponseWriter.Write, ResponseWriter.WriteHeader,
    ResponseWriter.HeaderSet, hw, StatusOK]

/-- C7. For a getResponse whose Err is non-nil, encodeGetResponse does exactly
what encodeError does for that error (the body gains the error object and
nothing else) and returns a nil error; for a nil Err it writes the bare item.
Consequently, on a response writer whose status line is not yet written, a
Get that fails with ErrNotFound is rendered with status 404 and with the body
members status_code 404 and status_text Not Found, both by encodeGetResponse
and by the route as a whole. -/
theorem encodeGetResponse_error_first (ErrNotFound err : GoError) (w : ResponseWriter)
    (sock : Sock) (tid : TraceID) (s : Service σ) (st : EpState σ) (id : String) :
    encodeGetResponse ErrNotFound w (.getResponse ⟨sock, some err, tid⟩)
        = some (encodeError ErrNotFound err w, none)
    ∧ (encodeError ErrNotFound err w).body = w.body ++
        [JSON.obj [("error", JSON.str err.Error),
          ("status_code", JSON.num (if err = ErrNotFound then 404 else 500)),
          ("status_text", JSON.str (StatusText (if err = ErrNotFound then 404 else 500)))]]
    ∧ encodeGetResponse ErrNotFound w (.getResponse ⟨sock, none, tid⟩)
        = some (encodeResponse w (.sock sock))
    ∧ (encodeResponse w (.sock sock)).1.body = w.body ++ [sock.marshal]
    ∧ (w.wroteHeader = false →
        (encodeGetResponse ErrNotFound w (.getResponse ⟨sock, some ErrNotFound, tid⟩)).map
            (fun x => (x.1.status, x.1.body, x.2))
          = some (404, w.body ++ [JSON.obj [("error", JSON.str ErrNotFound.Error),
              ("status_code", JSON.num 404), ("status_text", JSON.str "Not Found")]], none))
    ∧ (w.wroteHeader = false →
        (s.Get id st.span.traceID.String st.svc).1.2 = some ErrNotFound →
        (serve ErrNotFound (MakeGetEndpoint s) (encodeGetResponse ErrNotFound)
            (.getRequest ⟨id⟩) st w).map (fun x => (x.2.1.status, x.2.1.body))
          = some (404, w.body ++ [JSON.obj [("error", JSON.str ErrNotFound.Error),
              ("status_code", JSON.num 404), ("status_text", JSON.str "Not Found")]])) := by
  have hb := encodeError_body ErrNotFound ErrNotFound w
  have ht : StatusText 404 = "Not Found" := by decide
  simp only [if_true] at hb
  rw [ht] at hb
  refine ⟨rfl, encodeError_body ErrNotFound err w, rfl, (encodeResponse_body w _).1, ?_, ?_⟩
  · intro hw
    have hs := encodeError_status ErrNotFound ErrNotFound w hw
    simp only [if_true] at hs
    simp [encodeGetResponse, hs, hb]
  · intro hw hg
    have hs := encodeError_status ErrNotFound ErrNotFound w hw
    simp only [if_true] at hs
    simp [serve, MakeGetEndpoint, SetAttributes_traceID, hg, hs, hb]

/-- Witness of C7: a service whose Get fails with ErrNotFound, on a fresh
response writer. -/
theorem encodeGetResponse_error_first_witness :
    ResponseWriter.fresh.wroteHeader = false
    ∧ ((fixedService 0 Sock.zero (some ⟨1, "not found"⟩)).Get "x"
        emptySpan.traceID.String ()).1.2 = some ⟨1, "not found"⟩
    ∧ (serve ⟨1, "not found"⟩ (MakeGetEndpoint (fixedService 0 Sock.zero (some ⟨1, "not found"⟩)))
          (encodeGetResponse ⟨1, "not found"⟩) (.getRequest ⟨"x"⟩) ⟨(), emptySpan⟩
          ResponseWriter.fresh).map (fun x => (x.2.1.status, x.2.1.body))
        = some (404, [JSON.obj [("error", JSON.str "not found"),
            ("status_code", JSON.num 404), ("status_text", JSON.str "Not Found")]]) :=
  ⟨rfl, rfl,
    (encodeGetResponse_error_first ⟨1, "not found"⟩ ⟨1, "not found"⟩ ResponseWriter.fresh
      Sock.zero TraceID.zero (fixedService 0 Sock.zero (some ⟨1, "not found"⟩))
      ⟨(), emptySpan⟩ "x").2.2.2.2.2 rfl rfl⟩

/-- C8. For every service, state and request value of any type, the Health
endpoint returns a nil error together with the healthResponse holding the
records of the one call of Health; the route therefore answers through the
success encoder, with the status 200 on a response writer whose status line
is not yet written and with a body holding exactly those records. -/
theorem MakeHealthEndpoint_never_fails (ErrNotFound : GoError) (s : Service σ)
    (st : EpState σ) (request : Any) (w : ResponseWriter) :
    (MakeHealthEndpoint s request st).map (fun x => (x.1, x.2.svc))
        = some ((.healthResponse ⟨(s.Health st.svc).1⟩, none), (s.Health st.svc).2)
    ∧ (serve ErrNotFound (MakeHealthEndpoint s) encodeHealthResponse request st w).map
          (fun x => (x.1, x.2.1.status, x.2.1.body))
        = some (Encoder.success, (if w.wroteHeader then w.status else 200),
            w.body ++ [JSON.obj [("health", marshalHealths (s.Health st.svc).1)]]) := by
  refine ⟨rfl, ?_⟩
  have hb := encodeResponse_body w (.healthResponse ⟨(s.Health st.svc).1⟩)
  have hs := encodeResponse_status w (.healthResponse ⟨(s.Health st.svc).1⟩)
  simp only [serve, MakeHealthEndpoint, encodeHealthResponse]
  generalize encodeResponse w (.healthResponse ⟨(s.Health st.svc).1⟩) = r at hb hs
  obtain ⟨w1, e1⟩ := r
  simp only at hb hs
  obtain ⟨hb1, rfl⟩ := hb
  simp [hb1, hs, Any.marshal]

/-- C9, as stated, fails: for a Count that succeeds with 3, the body written
for the countResponse envelope has the members size, err and TraceID, and is
not the object whose only member is size. -/
theorem count_body_not_size_alone :
    (MakeCountEndpoint (fixedService 3 Sock.zero none) (.countRequest ⟨some []⟩)
        ⟨(), emptySpan⟩).map
        (fun x => (x.1.2, (encodeResponse ResponseWriter.fresh x.1.1).1.body.map JSON.keys))
      = some (none, [["size", "err", "TraceID"]])
    ∧ (MakeCountEndpoint (fixedService 3 Sock.zero none) (.countRequest ⟨some []⟩)
        ⟨(), emptySpan⟩).map (fun x => (encodeResponse ResponseWriter.fresh x.1.1).1.body)
      ≠ some [JSON.obj [("size", JSON.num 3)]] := by
  constructor
  · rfl
  · intro h
    have h2 := congrArg (Option.map (List.map JSON.keys)) h
    revert h2
    decide

/-- C9, amended. For every Count call that succeeds with n, the body written
by encodeResponse for the envelope of the Count endpoint is the JSON object
with the members size = n, err = null and TraceID = the zero trace
identifier in hexadecimal, in this order; its member size is n. -/
theorem count_body_envelope (s : Service σ) (st : EpState σ) (cr : countRequest)
    (w : ResponseWriter) (n : Int)
    (h : (s.Count cr.Tags st.span.traceID.String st.svc).1 = (n, none)) :
    (MakeCountEndpoint s (.countRequest cr) st).map
        (fun x => (x.1.2, (encodeResponse w x.1.1).1.body))
      = some (none, w.body ++ [JSON.obj [("size", JSON.num n), ("err", JSON.null),
          ("TraceID", JSON.str "00000000000000000000000000000000")]])
    ∧ (JSON.obj [("size", JSON.num n), ("err", JSON.null),
          ("TraceID", JSON.str "00000000000000000000000000000000")]).field "size"
      = some (JSON.num n) := by
  constructor
  · simp only [MakeCountEndpoint, SetAttributes_traceID, Option.map, h]
    rw [(encodeResponse_body w _).1]
    simp [Any.marshal, marshalError, TraceID.marshal, TraceID_zero_String]
  · simp [JSON.field]

/-- Witness of C9, amended: a Count that succeeds with 3, on a fresh response
writer. -/
theorem count_body_envelope_witness :
    ((fixedService 3 Sock.zero none).Count (some ["red"]) emptySpan.traceID.String ()).1
      = (3, none)
    ∧ (MakeCountEndpoint (fixedService 3 Sock.zero none) (.countRequest ⟨some ["red"]⟩)
        ⟨(), emptySpan⟩).map
        (fun x => (x.1.2, (encodeResponse ResponseWriter.fresh x.1.1).1.body))
      = some (none, [JSON.obj [("size", JSON.num 3), ("err", JSON.null),
          ("TraceID", JSON.str "00000000000000000000000000000000")]]) :=
  ⟨rfl, (count_body_envelope (fixedService 3 Sock.zero none) ⟨(), emptySpan⟩
    ⟨some ["red"]⟩ ResponseWriter.fresh 3 rfl).1⟩

/-- C10, evaluated: for the request with tags [red], order name, page 2 and
size 5 on a recording span, the List endpoint sets the attribute tags twice,
to the order and then to the page size, so that it reads 5; neither the
rendering [red] of the tags nor a key of its own for the page size is among
the attributes. -/
theorem MakeListEndpoint_span_attributes :
    (MakeListEndpoint (fixedService 0 Sock.zero none)
        (.listRequest ⟨some ["red"], "name", 2, 5⟩) ⟨(), emptySpan⟩).map
        (fun x => x.2.span.attrs)
      = some [("tags", "name"), ("order", "name"), ("Page Number", "2"), ("tags", "5"),
          ("service", "catalogue")]
    ∧ (MakeListEndpoint (fixedService 0 Sock.zero none)
        (.listRequest ⟨some ["red"], "name", 2, 5⟩) ⟨(), emptySpan⟩).map
        (fun x => x.2.span.attr "tags") = some (some "5")
    ∧ sprintStrings (some ["red"]) = "[red]" := by
  refine ⟨by decide, by decide, by decide⟩

/-! ### Reading decimal integers -/

theorem utf8EncodeChar_ascii (c : Char) (h : c.toNat ≤ 127) :
    (String.utf8EncodeChar c).map UInt8.toNat = [c.toNat] := by
  have hv : c.val ≤ 0x7f := by
    rw [UInt32.le_def]
    exact h
  simp only [String.utf8EncodeChar, hv, if_true, List.map]
  congr 1
  simp only [UInt32.toUInt8, Nat.toUInt8, UInt8.ofNat, UInt8.toNat, BitVec.toNat_ofNat]
  have : c.val.toNat ≤ 127 := h
  show c.val.toNat % 256 = c.val.toNat
  omega

theorem isDigit_iff (c : Char) : isDigit c = true ↔ 48 ≤ c.toNat ∧ c.toNat ≤ 57 := by
  simp [isDigit]

theorem flatMap_digits (cs : List Char) (h : cs.all isDigit = true) :
    cs.flatMap (fun c => (String.utf8EncodeChar c).map UInt8.toNat) = cs.map Char.toNat := by
  induction cs with
  | nil => rfl
  | cons c cs ih =>
    simp only [List.all_cons, Bool.and_eq_true] at h
    have hc := (isDigit_iff c).1 h.1
    simp only [List.flatMap_cons, List.map_cons, ih h.2]
    rw [utf8EncodeChar_ascii c (by omega)]
    rfl

theorem utf8Bytes_cons (c : Char) (cs : List Char) (hc : c.toNat ≤ 127)
    (h : cs.all isDigit = true) :
    utf8Bytes ⟨c :: cs⟩ = c.toNat :: cs.map Char.toNat := by
  simp only [utf8Bytes, List.flatMap_cons, flatMap_digits cs h]
  rw [utf8EncodeChar_ascii c hc]
  rfl

theorem le_digitsFrom (cs : List Char) (n : Nat) : n ≤ digitsFrom n cs := by
  induction cs generalizing n with
  | nil => exact Nat.le_refl n
  | cons c cs ih =>
    have h := ih (n * 10 + (c.toNat - 48))
    simp only [digitsFrom, List.foldl_cons] at h ⊢
    omega

theorem atoiFastLoop_digits (cs : List Char) (h : cs.all isDigit = true) (n : Nat) :
    strconv.atoiFastLoop (cs.map Char.toNat) (n : Int) = some ((digitsFrom n cs : Nat) : Int) := by
  induction cs generalizing n with
  | nil => rfl
  | cons c cs ih =>
    simp only [List.all_cons, Bool.and_eq_true] at h
    have hc := (isDigit_iff c).1 h.1
    have hd : (c.toNat + 256 - 48) % 256 = c.toNat - 48 := by omega
    have h9 : ¬ (c.toNat - 48 > 9) := by omega
    simp only [List.map_cons, strconv.atoiFastLoop, hd, h9, if_false]
    have e : (n : Int) * 10 + ((c.toNat - 48 : Nat) : Int) = ((n * 10 + (c.toNat - 48) : Nat) : Int) := by
      push_cast
      rfl
    rw [e, ih h.2]
    rfl

theorem parseUintLoop_digits (cs : List Char) (h : cs.all isDigit = true) (n : Nat)
    (hr : digitsFrom n cs ≤ strconv.maxUint64) :
    strconv.parseUintLoop (cs.map Char.toNat) n = (digitsFrom n cs, none) := by
  induction cs generalizing n with
  | nil => rfl
  | cons c cs ih =>
    simp only [List.all_cons, Bool.and_eq_true] at h
    have hc := (isDigit_iff c).1 h.1
    have hr2 : digitsFrom (n * 10 + (c.toNat - 48)) cs ≤ strconv.maxUint64 := hr
    have hm := le_digitsFrom cs (n * 10 + (c.toNat - 48))
    have hmax : strconv.maxUint64 = 18446744073709551615 := by decide
    have hlt : n * 10 + (c.toNat - 48) ≤ 18446744073709551615 := by omega
    have h1 : ¬ (n ≥ strconv.maxUint64 / 10 + 1) := by
      rw [hmax]
      omega
    have h2 : n * 10 % 2 ^ 64 = n * 10 := by
      apply Nat.mod_eq_of_lt
      norm_num
      omega
    have h3 : (n * 10 + (c.toNat - 48)) % 2 ^ 64 = n * 10 + (c.toNat - 48) := by
      apply Nat.mod_eq_of_lt
      norm_num
      omega
    have h4 : ¬ (n * 10 + (c.toNat - 48) < n * 10 ∨
        n * 10 + (c.toNat - 48) > strconv.maxUint64) := by
      rw [hmax]
      omega
    simp only [List.map_cons, strconv.parseUintLoop, hc.1, hc.2, and_self, if_true, h1,
      if_false, h2, h3, h4]
    exact ih h.2 _ hr2

theorem ParseUint_digits (cs : List Char) (h : isDigits cs = true)
    (hr : digitsFrom 0 cs ≤ strconv.maxUint64) :
    strconv.ParseUint (cs.map Char.toNat) = (digitsFrom 0 cs, none) := by
  simp only [isDigits, Bool.and_eq_true, Bool.not_eq_true', List.isEmpty_eq_false] at h
  have hne : ¬ (cs.map Char.toNat = []) := by
    intro e
    exact h.1 (List.map_eq_nil_iff.1 e)
  simp only [strconv.ParseUint, hne, if_false]
  exact parseUintLoop_digits cs h.2 0 hr

theorem Atoi_unsigned (c : Char) (cs : List Char) (h : isDigits (c :: cs) = true)
    (hhi : (digitsFrom 0 (c :: cs) : Int) ≤ strconv.maxInt) :
    strconv.Atoi ⟨c :: cs⟩ = (((digitsFrom 0 (c :: cs) : Nat) : Int), none) := by
  have hall : (c :: cs).all isDigit = true := by
    simp only [isDigits, Bool.and_eq_true] at h
    exact h.2
  have hall2 := hall
  simp only [List.all_cons, Bool.and_eq_true] at hall2
  have hc := (isDigit_iff c).1 hall2.1
  have hb : utf8Bytes ⟨c :: cs⟩ = c.toNat :: cs.map Char.toNat :=
    utf8Bytes_cons c cs (by omega) hall2.2
  have hfast := atoiFastLoop_digits (c :: cs) hall 0
  simp only [List.map_cons] at hfast
  have hmaxI : strconv.maxInt = 9223372036854775807 := by decide
  have hmaxU : strconv.maxUint64 = 18446744073709551615 := by decide
  have hdv : digitsFrom 0 (c :: cs) ≤ 9223372036854775807 := by
    rw [hmaxI] at hhi
    omega
  have hslow := ParseUint_digits (c :: cs) h (by rw [hmaxU]; omega)
  simp only [List.map_cons] at hslow
  have n45 : ¬ (c.toNat = 45) := by omega
  have n43 : ¬ (c.toNat = 43) := by omega
  unfold strconv.Atoi
  rw [hb]
  by_cases hlen : 0 < (c.toNat :: cs.map Char.toNat).length ∧
      (c.toNat :: cs.map Char.toNat).length < 19
  · simp only [hlen, and_self, if_true, n45, n43, or_self, false_and, if_false]
    rw [show ((0 : Nat) : Int) = 0 from rfl] at hfast
    rw [hfast]
  · simp only [hlen, if_false, strconv.ParseInt, n45, n43, or_self, decide_False, hslow]
    have g1 : ¬ (digitsFrom 0 (c :: cs) ≥ 2 ^ 63) := by
      norm_num
      omega
    simp [g1]
    omega

theorem Atoi_minus (c : Char) (cs : List Char) (hc : c.toNat = 45) (h : isDigits cs = true)
    (hlo : strconv.minInt ≤ -(digitsFrom 0 cs : Int)) :
    strconv.Atoi ⟨c :: cs⟩ = (-((digitsFrom 0 cs : Nat) : Int), none) := by
  have hall : cs.all isDigit = true := by
    simp only [isDigits, Bool.and_eq_true] at h
    exact h.2
  have hne : cs ≠ [] := by
    simp only [isDigits, Bool.and_eq_true, Bool.not_eq_true', List.isEmpty_eq_false] at h
    exact h.1
  have hb : utf8Bytes ⟨c :: cs⟩ = c.toNat :: cs.map Char.toNat :=
    utf8Bytes_cons c cs (by omega) hall
  have hfast := atoiFastLoop_digits cs hall 0
  have hminI : strconv.minInt = -9223372036854775808 := by decide
  have hmaxU : strconv.maxUint64 = 18446744073709551615 := by decide
  have hdv : digitsFrom 0 cs ≤ 9223372036854775808 := by
    rw [hminI] at hlo
    omega
  have hslow := ParseUint_digits cs h (by rw [hmaxU]; omega)
  have hl : ¬ ((cs.map Char.toNat).length < 1) := by
    rw [List.length_map]
    have := List.length_pos.2 hne
    omega
  rw [hc] at hb
  unfold strconv.Atoi
  rw [hb]
  by_cases hlen : 0 < ((45 : Nat) :: cs.map Char.toNat).length ∧
      ((45 : Nat) :: cs.map Char.toNat).length < 19
  · simp only [hlen, and_self, if_true, true_or, true_and, hl, if_false]
    rw [show ((0 : Nat) : Int) = 0 from rfl] at hfast
    rw [hfast]
  · simp only [hlen, if_false, strconv.ParseInt, or_true, if_true, decide_True, hslow]
    have g1 : ¬ (digitsFrom 0 cs > 2 ^ 63) := by
      norm_num
      omega
    simp [g1]
    omega

theorem Atoi_plus (c : Char) (cs : List Char) (hc : c.toNat = 43) (h : isDigits cs = true)
    (hhi : (digitsFrom 0 cs : Int) ≤ strconv.maxInt) :
    strconv.Atoi ⟨c :: cs⟩ = (((digitsFrom 0 cs : Nat) : Int), none) := by
  have hall : cs.all isDigit = true := by
    simp only [isDigits, Bool.and_eq_true] at h
    exact h.2
  have hne : cs ≠ [] := by
    simp only [isDigits, Bool.and_eq_true, Bool.not_eq_true', List.isEmpty_eq_false] at h
    exact h.1
  have hb : utf8Bytes ⟨c :: cs⟩ = c.toNat :: cs.map Char.toNat :=
    utf8Bytes_cons c cs (by omega) hall
  have hfast := atoiFastLoop_digits cs hall 0
  have hmaxI : strconv.maxInt = 9223372036854775807 := by decide
  have hmaxU : strconv.maxUint64 = 18446744073709551615 := by decide
  have hdv : digitsFrom 0 cs ≤ 9223372036854775807 := by
    rw [hmaxI] at hhi
    omega
  have hslow := ParseUint_digits cs h (by rw [hmaxU]; omega)
  have hl : ¬ ((cs.map Char.toNat).length < 1) := by
    rw [List.length_map]
    have := List.length_pos.2 hne
    omega
  have n45 : ¬ ((43 : Nat) = 45) := by decide
  rw [hc] at hb
  unfold strconv.Atoi
  rw [hb]
  by_cases hlen : 0 < ((43 : Nat) :: cs.map Char.toNat).length ∧
      ((43 : Nat) :: cs.map Char.toNat).length < 19
  · simp only [hlen, and_self, if_true, or_true, true_and, hl, if_false, n45]
    rw [show ((0 : Nat) : Int) = 0 from rfl] at hfast
    rw [hfast]
  · simp only [hlen, if_false, strconv.ParseInt, true_or, if_true, n45, decide_False, hslow]
    have g1 : ¬ (digitsFrom 0 cs ≥ 2 ^ 63) := by
      norm_num
      omega
    simp [g1]
    omega

/-- What `Atoi` returns for a decimal integer in the range of `int`: its
value, and no error. -/
theorem Atoi_decimal (s : String) (v : Int) (hv : decimalValue s = some v)
    (hlo : strconv.minInt ≤ v) (hhi : v ≤ strconv.maxInt) :
    strconv.Atoi s = (v, none) := by
  obtain ⟨data⟩ := s
  cases data with
  | nil => simp [decimalValue] at hv
  | cons c cs =>
    simp only [decimalValue] at hv
    split at hv
    · rename_i hc
      split at hv
      · rename_i hd
        simp only [Option.some.injEq] at hv
        subst hv
        exact Atoi_minus c cs hc hd hlo
      · simp at hv
    · split at hv
      · rename_i hc
        split at hv
        · rename_i hd
          simp only [Option.some.injEq] at hv
          subst hv
          exact Atoi_plus c cs hc hd hhi
        · simp at hv
      · split at hv
        · rename_i hd
          simp only [Option.some.injEq] at hv
          subst hv
          exact Atoi_unsigned c cs hd hhi
        · simp at hv

theorem Atoi_error_value (s : String) :
    ((strconv.Atoi s).2 = some .ErrSyntax → (strconv.Atoi s).1 = 0)
    ∧ ((strconv.Atoi s).2 = some .ErrRange →
        (strconv.Atoi s).1 = strconv.maxInt ∨ (strconv.Atoi s).1 = strconv.minInt) := by
  unfold strconv.Atoi strconv.ParseInt
  simp only []
  repeat' split
  all_goals simp [strconv.maxInt, strconv.minInt]

theorem splitChars_ne_nil (sep : Char) (cs : List Char) : splitChars sep cs ≠ [] := by
  cases cs with
  | nil => simp [splitChars]
  | cons c cs =>
    simp only [splitChars]
    split
    · simp
    · split <;> simp

theorem intercalate_cons_head (sep : List Char) (c : Char) (p : List Char)
    (ps : List (List Char)) :
    List.intercalate sep ((c :: p) :: ps) = c :: List.intercalate sep (p :: ps) := by
  cases ps <;> simp [List.intercalate, List.intersperse]

theorem intercalate_nil_head (sep : List Char) (p : List Char) (ps : List (List Char)) :
    List.intercalate sep ([] :: p :: ps) = sep ++ List.intercalate sep (p :: ps) := by
  simp [List.intercalate, List.intersperse]

theorem splitChars_join (sep : Char) (cs : List Char) :
    List.intercalate [sep] (splitChars sep cs) = cs := by
  induction cs with
  | nil => simp [splitChars, List.intercalate]
  | cons c cs ih =>
    simp only [splitChars]
    cases hsp : splitChars sep cs with
    | nil => exact absurd hsp (splitChars_ne_nil sep cs)
    | cons p ps =>
      rw [hsp] at ih
      split
      · rename_i h
        subst h
        rw [intercalate_nil_head, ih]
        rfl
      · simp only []
        rw [intercalate_cons_head, ih]

theorem splitChars_no_sep (sep : Char) (cs : List Char) :
    ∀ p ∈ splitChars sep cs, sep ∉ p := by
  induction cs with
  | nil => simp [splitChars]
  | cons c cs ih =>
    simp only [splitChars]
    split
    · intro p hp
      simp only [List.mem_cons] at hp
      rcases hp with rfl | hp
      · simp
      · exact ih p hp
    · rename_i hne
      cases hsp : splitChars sep cs with
      | nil => exact absurd hsp (splitChars_ne_nil sep cs)
      | cons q qs =>
        rw [hsp] at ih
        intro p hp
        simp only [List.mem_cons] at hp
        rcases hp with rfl | hp
        · intro hmem
          simp only [List.mem_cons] at hmem
          rcases hmem with h | h
          · exact hne h.symm
          · exact ih q (List.mem_cons_self _ _) h
        · exact ih p (List.mem_cons_of_mem _ hp)

theorem paramValue_Atoi (d : Int) (s : String) (v : Int) (h : paramValue d s = some v) :
    (if s ≠ "" then (strconv.Atoi s).1 else d) = v := by
  unfold paramValue at h
  by_cases hs : s = ""
  · simp only [hs, if_true, Option.some.injEq] at h
    simp [hs, h]
  · simp only [hs, if_false] at h
    cases hd : decimalValue s with
    | none => simp [hd] at h
    | some w =>
      simp only [hd] at h
      split at h
      · rename_i hr
        simp only [Option.some.injEq] at h
        subst h
        simp [hs, Atoi_decimal s w hd hr.1 hr.2]
      · simp at h

/-- C3, as stated, fails: for page=abc and size=x1, which do not parse,
decodeListRequest returns no error and PageNum = 0, PageSize = 0, not the
defaults 1 and 10. -/
theorem decodeListRequest_unparsable_not_default :
    (strconv.Atoi "abc").2 = some .ErrSyntax
    ∧ (strconv.Atoi "x1").2 = some .ErrSyntax
    ∧ (decodeListRequest id ⟨[("page", ["abc"]), ("size", ["x1"])], []⟩).2 = none
    ∧ (decodeListRequest id ⟨[("page", ["abc"]), ("size", ["x1"])], []⟩).1.toListRequest.map
        (fun q => (q.PageNum, q.PageSize)) = some (0, 0)
    ∧ (decodeListRequest id ⟨[("page", ["abc"]), ("size", ["x1"])], []⟩).1.toListRequest.map
        (fun q => q.PageNum) ≠ some 1
    ∧ (decodeListRequest id ⟨[("page", ["abc"]), ("size", ["x1"])], []⟩).1.toListRequest.map
        (fun q => q.PageSize) ≠ some 10 := by
  decide

/-- C3, amended. For every request, decodeListRequest returns no error; when
the page parameter is non-empty and Atoi fails on it, PageNum is the value
Atoi returns beside its error, which is 0 for a syntax error and the largest
or the smallest int for a value out of range, and is never the default 1;
likewise PageSize for the size parameter, never the default 10. -/
theorem decodeListRequest_unparsable (table : Char → Char) (r : Request) :
    (decodeListRequest table r).2 = none
    ∧ (r.FormValue "page" ≠ "" → (strconv.Atoi (r.FormValue "page")).2 ≠ none →
        (decodeListRequest table r).1.toListRequest.map (fun q => q.PageNum)
          = some (strconv.Atoi (r.FormValue "page")).1
        ∧ ((strconv.Atoi (r.FormValue "page")).2 = some .ErrSyntax →
            (strconv.Atoi (r.FormValue "page")).1 = 0)
        ∧ ((strconv.Atoi (r.FormValue "page")).2 = some .ErrRange →
            (strconv.Atoi (r.FormValue "page")).1 = 2 ^ 63 - 1
            ∨ (strconv.Atoi (r.FormValue "page")).1 = -(2 ^ 63))
        ∧ (strconv.Atoi (r.FormValue "page")).1 ≠ 1)
    ∧ (r.FormValue "size" ≠ "" → (strconv.Atoi (r.FormValue "size")).2 ≠ none →
        (decodeListRequest table r).1.toListRequest.map (fun q => q.PageSize)
          = some (strconv.Atoi (r.FormValue "size")).1
        ∧ ((strconv.Atoi (r.FormValue "size")).2 = some .ErrSyntax →
            (strconv.Atoi (r.FormValue "size")).1 = 0)
        ∧ ((strconv.Atoi (r.FormValue "size")).2 = some .ErrRange →
            (strconv.Atoi (r.FormValue "size")).1 = 2 ^ 63 - 1
            ∨ (strconv.Atoi (r.FormValue "size")).1 = -(2 ^ 63))
        ∧ (strconv.Atoi (r.FormValue "size")).1 ≠ 10) := by
  have key : ∀ s : String, (strconv.Atoi s).2 ≠ none →
      ((strconv.Atoi s).2 = some .ErrSyntax → (strconv.Atoi s).1 = 0)
      ∧ ((strconv.Atoi s).2 = some .ErrRange →
          (strconv.Atoi s).1 = 2 ^ 63 - 1 ∨ (strconv.Atoi s).1 = -(2 ^ 63))
      ∧ (strconv.Atoi s).1 ≠ 1 ∧ (strconv.Atoi s).1 ≠ 10 := by
    intro s he
    have h := Atoi_error_value s
    refine ⟨h.1, h.2, ?_, ?_⟩
    · cases hk : (strconv.Atoi s).2 with
      | none => exact absurd hk he
      | some k =>
        cases k with
        | ErrSyntax => rw [h.1 hk]; decide
        | ErrRange =>
          rcases h.2 hk with e | e <;> rw [e] <;> decide
    · cases hk : (strconv.Atoi s).2 with
      | none => exact absurd hk he
      | some k =>
        cases k with
        | ErrSyntax => rw [h.1 hk]; decide
        | ErrRange =>
          rcases h.2 hk with e | e <;> rw [e] <;> decide
  refine ⟨rfl, ?_, ?_⟩
  · intro hp he
    have k := key _ he
    refine ⟨?_, k.1, k.2.1, k.2.2.1⟩
    simp [decodeListRequest, Any.toListRequest, hp]
  · intro hp he
    have k := key _ he
    refine ⟨?_, k.1, k.2.1, k.2.2.2⟩
    simp [decodeListRequest, Any.toListRequest, hp]

/-- Witness of C3, amended: page=abc (a syntax error) and
size=99999999999999999999 (out of range). -/
theorem decodeListRequest_unparsable_witness :
    (decodeListRequest id
        ⟨[("page", ["abc"]), ("size", ["99999999999999999999"])], []⟩).1.toListRequest.map
        (fun q => q.PageNum)
      = some (strconv.Atoi "abc").1
    ∧ (strconv.Atoi "abc") = (0, some .ErrSyntax)
    ∧ (decodeListRequest id
        ⟨[("page", ["abc"]), ("size", ["99999999999999999999"])], []⟩).1.toListRequest.map
        (fun q => q.PageSize)
      = some (strconv.Atoi "99999999999999999999").1
    ∧ (strconv.Atoi "99999999999999999999") = (2 ^ 63 - 1, some .ErrRange) :=
  ⟨((decodeListRequest_unparsable id
      ⟨[("page", ["abc"]), ("size", ["99999999999999999999"])], []⟩).2.1
      (by decide) (by decide)).1,
    by decide,
    ((decodeListRequest_unparsable id
      ⟨[("page", ["abc"]), ("size", ["99999999999999999999"])], []⟩).2.2
      (by decide) (by decide)).1,
    by decide⟩

/-- C4, as stated, fails: for page=0 and size=-5 decodeListRequest yields
PageNum = 0 and PageSize = -5, which are below 1. -/
theorem decodeListRequest_below_one :
    (decodeListRequest id ⟨[("page", ["0"]), ("size", ["-5"])], []⟩).1.toListRequest.map
        (fun q => (q.PageNum, q.PageSize)) = some (0, -5)
    ∧ ¬ ((decodeListRequest id ⟨[("page", ["0"]), ("size", ["-5"])], []⟩).1.toListRequest.map
        (fun q => decide (q.PageNum ≥ 1 ∧ q.PageSize ≥ 1)) = some true) := by
  decide

/-- C4, amended. For every request in which each of page and size is
absent/empty or a decimal integer in the range of int whose value is at least
1, the listRequest produced by decodeListRequest has exactly these values (the
defaults 1 and 10 for absent/empty) and so satisfies PageNum ≥ 1 and
PageSize ≥ 1. -/
theorem decodeListRequest_positive (table : Char → Char) (r : Request) (p z : Int)
    (hp : paramValue 1 (r.FormValue "page") = some p)
    (hz : paramValue 10 (r.FormValue "size") = some z)
    (h1 : 1 ≤ p) (h2 : 1 ≤ z) :
    ∃ q, (decodeListRequest table r).1 = .listRequest q
      ∧ q.PageNum = p ∧ q.PageSize = z ∧ q.PageNum ≥ 1 ∧ q.PageSize ≥ 1 := by
  have ep := paramValue_Atoi 1 _ p hp
  have ez := paramValue_Atoi 10 _ z hz
  refine ⟨_, rfl, ?_, ?_, ?_, ?_⟩
  · exact ep
  · exact ez
  · show (if r.FormValue "page" ≠ "" then (strconv.Atoi (r.FormValue "page")).1 else 1) ≥ 1
    rw [ep]
    exact h1
  · show (if r.FormValue "size" ≠ "" then (strconv.Atoi (r.FormValue "size")).1 else 10) ≥ 1
    rw [ez]
    exact h2

/-- Witness of C4, amended: page=3 and no size. -/
theorem decodeListRequest_positive_witness :
    paramValue 1 ((⟨[("page", ["3"])], []⟩ : Request).FormValue "page") = some 3
    ∧ paramValue 10 ((⟨[("page", ["3"])], []⟩ : Request).FormValue "size") = some 10
    ∧ ∃ q, (decodeListRequest id ⟨[("page", ["3"])], []⟩).1 = .listRequest q
      ∧ q.PageNum = 3 ∧ q.PageSize = 10 ∧ q.PageNum ≥ 1 ∧ q.PageSize ≥ 1 :=
  ⟨by decide, by decide,
    decodeListRequest_positive id ⟨[("page", ["3"])], []⟩ 3 10 (by decide) (by decide)
      (by decide) (by decide)⟩

/-- C5. For every request in which each of page and size is absent/empty or a
decimal integer in the range of int, decodeListRequest returns, without
error, the listRequest with Tags = the tags value split on the comma (the
empty list when it is absent or empty), Order = the lowercased sort value (id
when it is absent or empty), PageNum = the integer value of page (1 when
absent or empty) and PageSize = the integer value of size (10 when absent or
empty). The pieces of the split contain no comma and, joined by commas, give
back the tags value. The request tags=a,b, sort=NAME, page=2, size=5 gives
[a,b], name, 2, 5. -/
theorem decodeListRequest_fields (table : Char → Char) (r : Request) (p z : Int)
    (hp : paramValue 1 (r.FormValue "page") = some p)
    (hz : paramValue 10 (r.FormValue "size") = some z) :
    decodeListRequest table r
      = (.listRequest
          ⟨some (if r.FormValue "tags" = "" then [] else stringsSplit (r.FormValue "tags") ','),
           (if r.FormValue "sort" = "" then "id" else stringsToLower table (r.FormValue "sort")),
           p, z⟩, none)
    ∧ List.intercalate [','] ((stringsSplit (r.FormValue "tags") ',').map String.data)
        = (r.FormValue "tags").data
    ∧ (∀ t ∈ stringsSplit (r.FormValue "tags") ',', ',' ∉ t.data)
    ∧ decodeListRequest table
        ⟨[("tags", ["a,b"]), ("sort", ["NAME"]), ("page", ["2"]), ("size", ["5"])], []⟩
      = (.listRequest ⟨some ["a", "b"], "name", 2, 5⟩, none) := by
  have ep := paramValue_Atoi 1 _ p hp
  have ez := paramValue_Atoi 10 _ z hz
  refine ⟨?_, ?_, ?_, ?_⟩
  · simp only [decodeListRequest, ep, ez]
    by_cases ht : r.FormValue "tags" = "" <;> by_cases hs : r.FormValue "sort" = "" <;>
      simp [ht, hs]
  · simp only [stringsSplit, List.map_map]
    have : (String.data ∘ String.mk) = id := by
      funext x
      rfl
    rw [this, List.map_id]
    exact splitChars_join ',' _
  · intro t ht
    simp only [stringsSplit, List.mem_map] at ht
    obtain ⟨cs, hcs, rfl⟩ := ht
    exact splitChars_no_sep ',' _ cs hcs
  · rfl

/-- Witness of C5: the request tags=a,b, sort=NAME, page=2, size=5. -/
theorem decodeListRequest_fields_witness :
    paramValue 1 ((⟨[("tags", ["a,b"]), ("sort", ["NAME"]), ("page", ["2"]), ("size", ["5"])],
        []⟩ : Request).FormValue "page") = some 2
    ∧ paramValue 10 ((⟨[("tags", ["a,b"]), ("sort", ["NAME"]), ("page", ["2"]),
        ("size", ["5"])], []⟩ : Request).FormValue "size") = some 5
    ∧ decodeListRequest id
        ⟨[("tags", ["a,b"]), ("sort", ["NAME"]), ("page", ["2"]), ("size", ["5"])], []⟩
      = (.listRequest
          ⟨some (if (⟨[("tags", ["a,b"]), ("sort", ["NAME"]), ("page", ["2"]), ("size", ["5"])],
              []⟩ : Request).FormValue "tags" = "" then []
            else stringsSplit ((⟨[("tags", ["a,b"]), ("sort", ["NAME"]), ("page", ["2"]),
              ("size", ["5"])], []⟩ : Request).FormValue "tags") ','),
           (if (⟨[("tags", ["a,b"]), ("sort", ["NAME"]), ("page", ["2"]), ("size", ["5"])],
              []⟩ : Request).FormValue "sort" = "" then "id"
            else stringsToLower id ((⟨[("tags", ["a,b"]), ("sort", ["NAME"]), ("page", ["2"]),
              ("size", ["5"])], []⟩ : Request).FormValue "sort")),
           2, 5⟩, none) :=
  ⟨by decide, by decide,
    (decodeListRequest_fields id
      ⟨[("tags", ["a,b"]), ("sort", ["NAME"]), ("page", ["2"]), ("size", ["5"])], []⟩ 2 5
      (by decide) (by decide)).1⟩

/-! ### The headers sent -/

theorem encodeError_sent (ErrNotFound err : GoError) (w : ResponseWriter)
    (hw : w.wroteHeader = false) :
    (encodeError ErrNotFound err w).sent = w.header
    ∧ (encodeError ErrNotFound err w).header
        = w.header.filter (fun p => p.1 != "Content-Type")
          ++ [("Content-Type", "application/json; charset=utf-8")] := by
  simp [encodeError, jsonEncode, ResponseWriter.Write, ResponseWriter.WriteHeader,
    ResponseWriter.HeaderSet, hw]

theorem encodeResponse_sent (w : ResponseWriter) (v : Any) (hw : w.wroteHeader = false) :
    (encodeResponse w v).1.sent
      = w.header.filter (fun p => p.1 != "Content-Type")
        ++ [("Content-Type", "application/json; charset=utf-8")] := by
  simp [encodeResponse, jsonEncode, ResponseWriter.Write, ResponseWriter.WriteHeader,
    ResponseWriter.HeaderSet, hw]

/-- C11, evaluated. For every error, on a fresh response writer, whose
headers are frozen when the status line is written, encodeError sends no
header at all: it writes the status line first and sets Content-Type only
afterwards, in the header map that is no longer sent. The header is not among
the headers sent, whereas encodeResponse, which sets it before it writes,
sends it for every response value. -/
theorem encodeError_content_type_not_sent (ErrNotFound err : GoError) (v : Any) :
    (encodeError ErrNotFound err ResponseWriter.fresh).sent = []
    ∧ (encodeError ErrNotFound err ResponseWriter.fresh).sentValue "Content-Type" = none
    ∧ (encodeError ErrNotFound err ResponseWriter.fresh).header
        = [("Content-Type", "application/json; charset=utf-8")]
    ∧ (encodeResponse ResponseWriter.fresh v).1.sentValue "Content-Type"
        = some "application/json; charset=utf-8" := by
  have he := encodeError_sent ErrNotFound err ResponseWriter.fresh rfl
  have hr := encodeResponse_sent ResponseWriter.fresh v rfl
  refine ⟨he.1, ?_, he.2, ?_⟩
  · simp only [ResponseWriter.sentValue, he.1]
    rfl
  · simp only [ResponseWriter.sentValue, hr]
    rfl

end Catalogue
